import Mathlib

/-!
Verification development for the quick_care_md hospital-management backend
(Django application `main_app`).  The definitions below are a shallow
embedding of the application code: model save/delete overrides from
`models.py`, serializer create methods from `serializers.py`, view handlers
from `views.py` and the authentication backend from `backends.py`.
Database state is passed explicitly; Django/DRF exceptions become an error
type; committed-versus-rolled-back effects are made explicit in the result
type of each operation.
-/

namespace QuickCare

/-- Exception classes raised by the application code.  `validationError`
embeds both `rest_framework.serializers.ValidationError` and
`django.core.exceptions.ValidationError` (the application raises them with a
message); `doesNotExist` embeds `Model.DoesNotExist`; `notFound` embeds the
`Http404` raised by `get_object_or_404`; `integrityError` embeds the
database `IntegrityError` raised when a unique constraint is violated;
`typeError` and `attributeError` embed the corresponding Python runtime
errors. -/
inductive Err where
  | validationError (msg : String)
  | permissionDenied (msg : String)
  | notFound
  | doesNotExist
  | integrityError
  | typeError (msg : String)
  | attributeError (msg : String)
deriving DecidableEq

/-- Result of one request-level operation on database state of type `α`.
`ok st` is a normal return with the committed state `st`; `err e st` is an
exception `e` escaping the operation with `st` the state that is durable
afterwards: for code running under `@transaction.atomic` that is the state
from before the call (rollback), while for plain view code it contains
every write already committed by an intervening `save()`. -/
inductive Tx (α : Type) where
  | ok (st : α)
  | err (e : Err) (st : α)
deriving DecidableEq

/-- Row of the `Treatment` table that the accountability logic reads:
primary key (`treatment_id`, an AutoField) and the `success` boolean.
`treatment_options` and the foreign keys not consulted by the counter logic
are omitted. -/
structure TreatmentRec where
  pk : Nat
  success : Bool
deriving DecidableEq

/-- Row of the `Patient` table as consulted by the treatment views: primary
key, the owning doctor (`doctor` foreign key) and the names of the diseases
in the `disease` many-to-many relation. -/
structure PatientRec where
  id : Nat
  doctorId : Nat
  diseases : List String
deriving DecidableEq

/-- Database state around one doctor, as read and written by the treatment
engine: the doctor row's `incorrect_treatments` column (an IntegerField,
hence `Int`), the doctor's `user.is_active` flag, the `Treatment` rows
belonging to that doctor together with the AutoField sequence `nextId`, and
the `Patient` rows. -/
structure TreatState where
  incorrectTreatments : Int
  userActive : Bool
  nextId : Nat
  treatments : List TreatmentRec
  patients : List PatientRec
deriving DecidableEq

/-- Embeds `Treatment.objects.get(pk=...)`: the primary key is unique, so
the lookup returns the row with that key, or raises `DoesNotExist`. -/
def findTreatment : List TreatmentRec → Nat → Option TreatmentRec
  | [], _ => none
  | t :: ts, pk => if t.pk == pk then some t else findTreatment ts pk

/-- Embeds the UPDATE of the `success` column of the row with the given
primary key performed by `super().save()` on an existing treatment. -/
def setSuccess : List TreatmentRec → Nat → Bool → List TreatmentRec
  | [], _, _ => []
  | t :: ts, pk, s =>
    if t.pk == pk then { t with success := s } :: ts else t :: setSuccess ts pk s

/-- Embeds `Treatment.save` (models.py lines 97-113) for the case in which
the saved instance's `doctor` is the one doctor the state tracks — i.e. an
update does not reassign the writable `doctor` foreign key (for the
reassigning update, where `self.doctor` differs from the doctor of the
stored row, see `treatmentSaveFull` below).  The method is decorated
`@transaction.atomic`, so an exception rolls the whole operation back:
every `err` branch carries the unchanged input state.  `doctorPresent`
records whether the treatment's nullable `doctor` foreign key is set; when
it is `none`, the unconditional `self.doctor.save()` (or the counter
mutation before it) raises `AttributeError` on `None`.
On an update (`self.pk` set) the old row is fetched and the counter delta
is derived from the `old.success != self.success` transition; on a create
the counter is incremented exactly when `success` is false.  Both the
doctor row and the treatment row are written inside the one transaction. -/
def treatmentSave (st : TreatState) (doctorPresent : Bool) (pk? : Option Nat)
    (success : Bool) : Tx TreatState :=
  match pk? with
  | some pk =>
    match findTreatment st.treatments pk with
    | none => .err .doesNotExist st
    | some old =>
      if doctorPresent then
        .ok { st with
          incorrectTreatments := st.incorrectTreatments +
            (if old.success != success then (if success then -1 else 1) else 0),
          treatments := setSuccess st.treatments pk success }
      else
        .err (.attributeError "NoneType object has no attribute") st
  | none =>
    if doctorPresent then
      .ok { st with
        incorrectTreatments := st.incorrectTreatments + (if success then 0 else 1),
        treatments := st.treatments ++ [⟨st.nextId, success⟩],
        nextId := st.nextId + 1 }
    else
      .err (.attributeError "NoneType object has no attribute") st

/-- The list of valid single-option treatment strings hard-coded in
`TreatmentSerializer.create` (serializers.py lines 48-52). -/
def validTreatmentStrings : List String :=
  ["Insulin therapy", "Lifestyle changes", "ACE inhibitors", "Bypass surgery",
   "Chemotherapy", "Radiation therapy", "Surgery", "Dialysis", "Kidney transplant",
   "Inhalers", "Steroids", "Antiviral medications", "Rest and hydration"]

/-- Embeds `TreatmentSerializer.create` (serializers.py lines 42-66).
`success` is resolved by membership of the submitted `treatment_options`
string in `validTreatmentStrings`; then `Treatment.objects.create` runs
(which calls `Treatment.save`, itself already adjusting the counter), and
afterwards, when `success` is false, the serializer increments the same
doctor object again and saves it — a second, separate commit outside any
transaction. -/
def treatmentSerializerCreate (st : TreatState) (doctorPresent : Bool)
    (treatmentOptions : String) : Tx TreatState :=
  let success := validTreatmentStrings.contains treatmentOptions
  match treatmentSave st doctorPresent none success with
  | .err e st1 => .err e st1
  | .ok st1 =>
    if success then .ok st1
    else .ok { st1 with incorrectTreatments := st1.incorrectTreatments + 1 }

/-- One entry of the `valid_treatments` list built in
`TreatmentListCreateView.perform_create` (views.py lines 193-202): a dict
with keys `treatment_id` and `treatment_options`. -/
structure CatalogEntry where
  treatment_id : Nat
  treatment_options : String
deriving DecidableEq

/-- The eight-entry catalog of `views.py` lines 193-202. -/
def validTreatmentsCatalog : List CatalogEntry :=
  [⟨1, "Insulin therapy, Lifestyle changes"⟩,
   ⟨2, "ACE inhibitors, Lifestyle changes"⟩,
   ⟨3, "Medication, Bypass surgery, Lifestyle changes"⟩,
   ⟨4, "Chemotherapy, Radiation therapy, Surgery"⟩,
   ⟨5, "Dialysis, Kidney transplant"⟩,
   ⟨6, "Inhalers, Steroids, Avoiding triggers"⟩,
   ⟨7, "Supportive care, Antiviral medications"⟩,
   ⟨8, "Antiviral drugs, Rest and hydration"⟩]

/-- Python equality between a `str` and a `dict`.  The membership test
`treatment_name not in valid_treatments` (views.py line 204) compares the
submitted string against dict elements with `==`; in Python a `str` never
equals a `dict`, so this is constantly `false`. -/
def pyStrEqCatalogEntry (_ : String) (_ : CatalogEntry) : Bool := false

/-- Embeds `Patient.objects.get(id=...)` / `get_object_or_404(Patient, id=...)`. -/
def findPatient : List PatientRec → Nat → Option PatientRec
  | [], _ => none
  | p :: ps, i => if p.id == i then some p else findPatient ps i

/-- Embeds `TreatmentListCreateView.perform_create` of the FIRST class
definition (views.py lines 179-222, the class at line 174).  NOTE: views.py
defines `TreatmentListCreateView` twice; Python binds the later class, so
`POST /treatments/` is served by the second definition at line 231
(embedded below as `viewsPerformCreateServed`) and this first class is
shadowed dead code — it is embedded here because the claims cite these
lines.  Not under any transaction: each `doctor.save()` commits at once, so
the `err` results carry the mutated state.  Flow: 404 when the patient id
does not resolve; `ValidationError` when the patient has no diseases; then
the catalog membership test (which, comparing a string to dicts, always
fails), incrementing the counter and raising — with the "deactivation"
branch at three or more incorrect treatments assigning
`doctor.is_active = False`, a transient Python attribute (`Doctor` has no
`is_active` field), so `doctor.save()` persists nothing for it and
`User.is_active` is untouched; the state is therefore unchanged apart from
the committed counter.  The never-reached valid branch resets the counter
to zero and delegates to the treatment serializer. -/
def viewsPerformCreate (st : TreatState) (patientId : Nat)
    (treatmentName : String) : Tx TreatState :=
  match findPatient st.patients patientId with
  | none => .err .notFound st
  | some patient =>
    if patient.diseases.isEmpty then
      .err (.validationError "No diseases associated with the patient.") st
    else if !(validTreatmentsCatalog.any (pyStrEqCatalogEntry treatmentName)) then
      let st1 := { st with incorrectTreatments := st.incorrectTreatments + 1 }
      if st1.incorrectTreatments >= 3 then
        .err (.validationError
          "Doctor has been deactivated due to multiple incorrect treatments.") st1
      else
        .err (.validationError (treatmentName ++ " is not a valid treatment.")) st1
    else
      treatmentSerializerCreate { st with incorrectTreatments := 0 } true treatmentName

/-- Embeds `TreatmentListCreateView.perform_create` of the SECOND class
definition (views.py lines 236-266, the class at line 231), the one Python
actually binds and so the handler serving `POST /treatments/`.  It resolves
the patient (404 when the id does not resolve) and then evaluates
`patient.disease.treatments.all()` (line 244): `patient.disease` is the
many-to-many related manager, which has no attribute `treatments`, so every
call raises `AttributeError` at that line — before any `doctor.save()` or
treatment write, leaving the state unchanged. -/
def viewsPerformCreateServed (st : TreatState) (patientId : Nat) : Tx TreatState :=
  match findPatient st.patients patientId with
  | none => .err .notFound st
  | some _ =>
    .err (.attributeError "ManyRelatedManager object has no attribute treatments") st

/-- Embeds a DELETE on `TreatmentDetailView` (views.py lines 269-272):
the row with the given primary key is removed; a missing id is a 404.  The
doctor's counter is not touched by deletion. -/
def viewsTreatmentDelete (st : TreatState) (pk : Nat) : Tx TreatState :=
  match findTreatment st.treatments pk with
  | none => .err .notFound st
  | some _ =>
    .ok { st with treatments := st.treatments.filter (fun t => !(t.pk == pk)) }

/-- Embeds `Doctor.fire` (models.py lines 53-57): when the counter has
reached 3, the associated user account is deactivated. -/
def fire (st : TreatState) : TreatState :=
  if st.incorrectTreatments >= 3 then { st with userActive := false } else st

/-- The treatment create, update and delete operations reachable in the
application, plus the `fire` action: `modelCreate` is a direct
`Treatment.objects.create` (as performed by the patient-creation seeding in
`PatientListCreateView.perform_create`), `modelUpdate` is the
`instance.save()` issued by the DRF update path of `TreatmentDetailView`,
`viewsCreate` is a POST to the treatment list view, `serializerCreate` is
`TreatmentSerializer.create`, `viewsDelete` a DELETE on the detail view. -/
inductive TreatmentOp where
  | modelCreate (doctorPresent : Bool) (success : Bool)
  | modelUpdate (doctorPresent : Bool) (pk : Nat) (success : Bool)
  | viewsCreate (patientId : Nat) (treatmentName : String)
  | serializerCreate (doctorPresent : Bool) (treatmentName : String)
  | viewsDelete (pk : Nat)
  | fireOp

/-- The database state that is durable after an operation, whether it
returned normally or raised. -/
def txState : Tx TreatState → TreatState
  | .ok st => st
  | .err _ st => st

/-- Runs one operation against the state; an exception leaves the
operation's durable state (requests are handled independently). -/
def applyOp (st : TreatState) : TreatmentOp → TreatState
  | .modelCreate dp s => txState (treatmentSave st dp none s)
  | .modelUpdate dp pk s => txState (treatmentSave st dp (some pk) s)
  | .viewsCreate pid tn => txState (viewsPerformCreate st pid tn)
  | .serializerCreate dp tn => txState (treatmentSerializerCreate st dp tn)
  | .viewsDelete pk => txState (viewsTreatmentDelete st pk)
  | .fireOp => fire st

/-- Runs a sequence of operations. -/
def applyOps (st : TreatState) : List TreatmentOp → TreatState
  | [] => st
  | op :: ops => applyOps (applyOp st op) ops

/-- A freshly created doctor: `incorrect_treatments` defaults to 0, the
user account is active, no treatments exist yet. -/
def initTreatState (patients : List PatientRec) : TreatState :=
  ⟨0, true, 0, [], patients⟩

lemma findTreatment_setSuccess (ts : List TreatmentRec) (pk : Nat) (s : Bool)
    (t : TreatmentRec) (h : findTreatment ts pk = some t) :
    findTreatment (setSuccess ts pk s) pk = some { t with success := s } := by
  induction ts with
  | nil => simp [findTreatment] at h
  | cons u ts ih =>
    by_cases hu : u.pk == pk
    · simp [findTreatment, hu] at h
      subst h
      simp [setSuccess, findTreatment, hu]
    · simp [findTreatment, hu] at h
      simp [setSuccess, findTreatment, hu, ih h]

lemma setSuccess_setSuccess (ts : List TreatmentRec) (pk : Nat) (s : Bool) :
    setSuccess (setSuccess ts pk s) pk s = setSuccess ts pk s := by
  induction ts with
  | nil => simp [setSuccess]
  | cons u ts ih =>
    by_cases hu : u.pk == pk
    · simp [setSuccess, hu]
    · simp [setSuccess, hu, ih]

/-- Row of the `Treatment` table carrying its `doctor` foreign key, for
modelling the update path in which the writable `doctor` field of
`TreatmentSerializer` reassigns the row to a different doctor. -/
structure TreatmentRow where
  pk : Nat
  doctorId : Nat
  success : Bool
deriving DecidableEq

/-- A `Doctor` row's primary key and `incorrect_treatments` counter. -/
structure DoctorCounter where
  doctorId : Nat
  incorrectTreatments : Int
deriving DecidableEq

/-- Database state with several doctors and the treatment rows' `doctor`
foreign keys explicit. -/
structure MultiTreatState where
  doctors : List DoctorCounter
  treatments : List TreatmentRow
  nextId : Nat
deriving DecidableEq

/-- Embeds `Treatment.objects.get(pk=...)` over rows with doctor keys. -/
def findRow : List TreatmentRow → Nat → Option TreatmentRow
  | [], _ => none
  | t :: ts, pk => if t.pk == pk then some t else findRow ts pk

/-- Embeds `self.doctor.incorrect_treatments += delta` followed by
`self.doctor.save()`: the counter of the doctor row the treatment instance
points to is updated by the delta. -/
def bumpDoctor (ds : List DoctorCounter) (did : Nat) (delta : Int) :
    List DoctorCounter :=
  ds.map (fun d =>
    if d.doctorId == did then
      { d with incorrectTreatments := d.incorrectTreatments + delta }
    else d)

/-- Embeds `Treatment.save` (models.py lines 97-113) over the full data
model, the treatment rows carrying their `doctor` foreign key.
`doctorId?` is the nullable `doctor` set on the instance being saved:
`TreatmentSerializer` exposes `doctor` as a writable field and
`TreatmentDetailView` applies the default ModelSerializer update (set the
attributes, then `instance.save()`), so on an update `self.doctor` may
differ from the doctor owning the stored row.  The counter delta derived
from the `old.success != self.success` transition is applied to
`self.doctor` — the possibly reassigned doctor — and `super().save()`
persists the row with the new doctor and success values.  A `None` doctor
raises `AttributeError`, and `@transaction.atomic` keeps every `err` state
unchanged. -/
def treatmentSaveFull (st : MultiTreatState) (doctorId? : Option Nat)
    (pk? : Option Nat) (success : Bool) : Tx MultiTreatState :=
  match pk? with
  | some pk =>
    match findRow st.treatments pk with
    | none => .err .doesNotExist st
    | some old =>
      match doctorId? with
      | none => .err (.attributeError "NoneType object has no attribute") st
      | some did =>
        .ok { st with
          doctors := bumpDoctor st.doctors did
            (if old.success != success then (if success then -1 else 1) else 0),
          treatments := st.treatments.map (fun t =>
            if t.pk == pk then { t with doctorId := did, success := success } else t) }
  | none =>
    match doctorId? with
    | none => .err (.attributeError "NoneType object has no attribute") st
    | some did =>
      .ok { st with
        doctors := bumpDoctor st.doctors did (if success then 0 else 1),
        treatments := st.treatments ++ [⟨st.nextId, did, success⟩],
        nextId := st.nextId + 1 }

/-- C2: the counter CAN go below 0.  Treatment 5 is stored with doctor 1
(counter 1) and `success=false`; a PATCH of `/treatments/5/` that
reassigns the writable `doctor` field to doctor 2 (clean, counter 0) while
correcting `success` to true makes `Treatment.save` apply the
false-to-true decrement to `self.doctor` — the NEW doctor — committing
counter −1 for doctor 2 and leaving doctor 1 at 1, contradicting the
claimed `incorrectTreatmentCount >= 0` invariant. -/
theorem c2_reassigned_correction_negative_counter :
    treatmentSaveFull ⟨[⟨1, 1⟩, ⟨2, 0⟩], [⟨5, 1, false⟩], 6⟩ (some 2) (some 5) true =
      .ok ⟨[⟨1, 1⟩, ⟨2, -1⟩], [⟨5, 2, true⟩], 6⟩ :=
  rfl

/-- C1: recording three failed treatments does NOT deactivate the doctor's
user account.  Starting from a clean active doctor, three `Treatment.save`
creates with `success=false` bring the counter to 3 while `user.is_active`
stays true: the deactivation in the treatment view only assigns
`doctor.is_active`, a field the `Doctor` model does not have, so nothing is
persisted, and only the separate `Doctor.fire` endpoint sets
`user.is_active = False`.  After a manual `fire`, a further treatment
submission is still processed by the view — it increments the counter to 4
and is rejected with a `ValidationError`, not with an `AccessDenied` /
`PermissionDenied` error. -/
theorem c1_three_failures_do_not_deactivate :
    applyOps (initTreatState [⟨1, 0, ["Cancer"]⟩])
        [.modelCreate true false, .modelCreate true false, .modelCreate true false] =
      ⟨3, true, 3, [⟨0, false⟩, ⟨1, false⟩, ⟨2, false⟩], [⟨1, 0, ["Cancer"]⟩]⟩ ∧
    fire ⟨3, true, 3, [⟨0, false⟩, ⟨1, false⟩, ⟨2, false⟩], [⟨1, 0, ["Cancer"]⟩]⟩ =
      ⟨3, false, 3, [⟨0, false⟩, ⟨1, false⟩, ⟨2, false⟩], [⟨1, 0, ["Cancer"]⟩]⟩ ∧
    viewsPerformCreate
        ⟨3, false, 3, [⟨0, false⟩, ⟨1, false⟩, ⟨2, false⟩], [⟨1, 0, ["Cancer"]⟩]⟩ 1
        "Chemotherapy" =
      .err (.validationError
          "Doctor has been deactivated due to multiple incorrect treatments.")
        ⟨4, false, 3, [⟨0, false⟩, ⟨1, false⟩, ⟨2, false⟩], [⟨1, 0, ["Cancer"]⟩]⟩ :=
  ⟨rfl, rfl, rfl⟩

/-- C3: every live treatment create/update invocation is all-or-nothing.
The three conjuncts cover the paths that can touch the counter or the
treatment table in the served program: (1) `Treatment.save` in the
single-doctor model and (2) in the full multi-doctor model — both under
`@transaction.atomic` — commit the derived counter delta and the treatment
row together on a normal return and leave the state exactly unchanged on
an exception; (3) the handler actually serving `POST /treatments/` (the
second `TreatmentListCreateView`) raises — 404 or `AttributeError` —
before any write, so it never commits anything.  The shadowed first view
class, which would commit a counter increment without a row, and the
serializer's separate post-increment (reachable only from that shadowed
class) are dead code in the served program. -/
theorem c3_record_treatment_all_or_nothing (st : TreatState) (dp : Bool)
    (pk? : Option Nat) (s : Bool) (stm : MultiTreatState) (did? : Option Nat)
    (pid : Nat) :
    (match pk?, treatmentSave st dp pk? s with
      | none, .ok st2 =>
          st2.treatments = st.treatments ++ [⟨st.nextId, s⟩] ∧
          st2.incorrectTreatments = st.incorrectTreatments + (if s then 0 else 1)
      | some pk, .ok st2 =>
          ∃ t, findTreatment st.treatments pk = some t ∧
            st2.treatments = setSuccess st.treatments pk s ∧
            st2.incorrectTreatments = st.incorrectTreatments +
              (if t.success != s then (if s then -1 else 1) else 0)
      | _, .err _ st2 => st2 = st) ∧
    (match pk?, treatmentSaveFull stm did? pk? s with
      | none, .ok st2 =>
          ∃ did, did? = some did ∧
            st2.treatments = stm.treatments ++ [⟨stm.nextId, did, s⟩] ∧
            st2.doctors = bumpDoctor stm.doctors did (if s then 0 else 1)
      | some pk, .ok st2 =>
          ∃ did t, did? = some did ∧ findRow stm.treatments pk = some t ∧
            st2.treatments = stm.treatments.map (fun r =>
              if r.pk == pk then { r with doctorId := did, success := s } else r) ∧
            st2.doctors = bumpDoctor stm.doctors did
              (if t.success != s then (if s then -1 else 1) else 0)
      | _, .err _ st2 => st2 = stm) ∧
    (match viewsPerformCreateServed st pid with
      | .ok _ => False
      | .err _ st2 => st2 = st) := by
  refine ⟨?_, ?_, ?_⟩
  · match pk? with
    | none =>
      cases dp
      · simp [treatmentSave]
      · simp [treatmentSave]
    | some pk =>
      cases hf : findTreatment st.treatments pk with
      | none => simp [treatmentSave, hf]
      | some t =>
        cases dp
        · simp [treatmentSave, hf]
        · simp only [treatmentSave, hf]
          exact ⟨t, hf, rfl, rfl⟩
  · match pk? with
    | none =>
      cases did? with
      | none => simp [treatmentSaveFull]
      | some did =>
        simp only [treatmentSaveFull]
        exact ⟨did, rfl, rfl, rfl⟩
    | some pk =>
      cases hf : findRow stm.treatments pk with
      | none => simp [treatmentSaveFull, hf]
      | some t =>
        cases did? with
        | none => simp [treatmentSaveFull, hf]
        | some did =>
          simp only [treatmentSaveFull, hf]
          exact ⟨did, t, rfl, rfl, rfl, rfl⟩
  · cases hp : findPatient st.patients pid with
    | none => simp [viewsPerformCreateServed, hp]
    | some p => simp [viewsPerformCreateServed, hp]

/-- C4: editing an existing treatment's `success` flag derives the counter
delta from the transition — a false-to-true edit adds -1, a true-to-false
edit adds 1, a no-change edit adds 0 — the stored flag becomes the new
value, and repeating the identical edit is a no-op (the second save
returns the same state, so no transition is double-counted). -/
theorem c4_update_delta_and_idempotence (st : TreatState) (pk : Nat)
    (s : Bool) (t : TreatmentRec) (h : findTreatment st.treatments pk = some t) :
    ∃ st2, treatmentSave st true (some pk) s = .ok st2 ∧
      st2.incorrectTreatments = st.incorrectTreatments +
        (if t.success != s then (if s then -1 else 1) else 0) ∧
      st2.treatments = setSuccess st.treatments pk s ∧
      findTreatment st2.treatments pk = some { t with success := s } ∧
      treatmentSave st2 true (some pk) s = .ok st2 := by
  have hok : treatmentSave st true (some pk) s =
      .ok { st with
        incorrectTreatments := st.incorrectTreatments +
          (if t.success != s then (if s then -1 else 1) else 0),
        treatments := setSuccess st.treatments pk s } := by
    simp [treatmentSave, h]
  have h2 : findTreatment (setSuccess st.treatments pk s) pk =
      some { t with success := s } :=
    findTreatment_setSuccess st.treatments pk s t h
  refine ⟨_, hok, rfl, rfl, h2, ?_⟩
  simp [treatmentSave, h2, setSuccess_setSuccess]

/-- Witness for C4 at a concrete input: a doctor with counter 1 owns the
single failed treatment 0; correcting it to `success=true` decrements the
counter to 0, and repeating the same edit changes nothing. -/
theorem c4_update_delta_and_idempotence_witness :
    ∃ st2, treatmentSave ⟨1, true, 1, [⟨0, false⟩], []⟩ true (some 0) true = .ok st2 ∧
      st2.incorrectTreatments = 1 +
        (if (false != true) then (if true then -1 else 1) else 0) ∧
      st2.treatments = setSuccess [⟨0, false⟩] 0 true ∧
      findTreatment st2.treatments 0 = some ⟨0, true⟩ ∧
      treatmentSave st2 true (some 0) true = .ok st2 :=
  c4_update_delta_and_idempotence ⟨1, true, 1, [⟨0, false⟩], []⟩ 0 true ⟨0, false⟩ rfl

/-- C5: under the catalog-validation view, a doctor with counter 0
submitting the catalog string "Chemotherapy, Radiation therapy, Surgery"
for a patient whose disease is Cancer is NOT accepted: the membership test
compares the submitted string against a list of dict records, so it always
fails; the submission is rejected with `ValidationError` and the counter
becomes 1 instead of staying 0.  Additionally, the serializer that would
resolve `success` on the (unreachable) accept path checks a list of
single-option strings that does not contain the combined catalog string. -/
theorem c5_catalog_submission_rejected :
    viewsPerformCreate ⟨0, true, 0, [], [⟨1, 0, ["Cancer"]⟩]⟩ 1
        "Chemotherapy, Radiation therapy, Surgery" =
      .err (.validationError
          "Chemotherapy, Radiation therapy, Surgery is not a valid treatment.")
        ⟨1, true, 0, [], [⟨1, 0, ["Cancer"]⟩]⟩ ∧
    validTreatmentStrings.contains "Chemotherapy, Radiation therapy, Surgery" = false ∧
    validTreatmentsCatalog.any
        (fun e => e.treatment_options == "Chemotherapy, Radiation therapy, Surgery") = true :=
  ⟨rfl, by decide, by decide⟩

/-- Row of the custom `User` table: primary key, `username`, `role`,
`is_staff` and the stored password credential. -/
structure UserRec where
  id : Nat
  username : String
  role : String
  isStaff : Bool
  password : String
deriving DecidableEq

/-- Row of the `Doctor` table: the unique `user` one-to-one key, `name`
and `incorrect_treatments`. -/
structure DoctorRec where
  userId : Nat
  name : String
  incorrectTreatments : Int
deriving DecidableEq

/-- Database state for the user/doctor/patient lifecycle, with the primary
key sequence for users. -/
structure HospState where
  users : List UserRec
  doctors : List DoctorRec
  patients : List PatientRec
  nextUserId : Nat
deriving DecidableEq

/-- Embeds `User.objects.get(pk=...)`. -/
def findUserById : List UserRec → Nat → Option UserRec
  | [], _ => none
  | u :: us, uid => if u.id == uid then some u else findUserById us uid

/-- Embeds `hasattr(user, "doctor")`: whether a `Doctor` row exists for the
given user (the reverse one-to-one lookup). -/
def hasattrDoctor (st : HospState) (userId : Nat) : Bool :=
  st.doctors.any (fun d => d.userId == userId)

/-- Embeds `Doctor.objects.create(user=..., name=...)`: the `user` column
is a OneToOneField, hence unique, so inserting a second `Doctor` row for
the same user raises the database `IntegrityError`. -/
def doctorObjectsCreate (st : HospState) (userId : Nat) (name : String) :
    Tx HospState :=
  if st.doctors.any (fun d => d.userId == userId) then .err .integrityError st
  else .ok { st with doctors := st.doctors ++ [⟨userId, name, 0⟩] }

/-- Embeds the `User.save` override (models.py lines 26-36): the user row
is written first; then a `Doctor` is created when the role is doctor and no
associated doctor exists (line 31); the second guarded create (line 35)
re-checks `hasattr`, which by then is true whenever the first branch fired,
so it never fires after it.  `isNew` embeds `self.pk is None`. -/
def userSave (st : HospState) (u : UserRec) (isNew : Bool) : Tx HospState :=
  let isNewDoctor := isNew && u.role == "doctor"
  let st1 :=
    if isNew then { st with users := st.users ++ [u] }
    else { st with users := st.users.map (fun v => if v.id == u.id then u else v) }
  match (if u.role == "doctor" && !(hasattrDoctor st1 u.id) then
      doctorObjectsCreate st1 u.id u.username
    else .ok st1) with
  | .err e s => .err e s
  | .ok st2 =>
    if u.role == "doctor" && !isNewDoctor && !(hasattrDoctor st2 u.id) then
      doctorObjectsCreate st2 u.id u.username
    else .ok st2

/-- Embeds `UserSerializer.create` (serializers.py lines 15-28): builds the
user (staff for both roles), saves it — which, for role doctor, already
auto-creates the `Doctor` via the `User.save` override — and then performs
its own unconditional `Doctor.objects.create` when the role is doctor.
Uniqueness of the submitted username is validated upstream by the
serializer field validation. -/
def userSerializerCreate (st : HospState) (username password role : String) :
    Tx HospState :=
  let isStaff := role == "admin" || role == "doctor"
  let u : UserRec := ⟨st.nextUserId, username, role, isStaff, password⟩
  match userSave { st with nextUserId := st.nextUserId + 1 } u true with
  | .err e s => .err e s
  | .ok st1 =>
    if role == "doctor" then doctorObjectsCreate st1 u.id username
    else .ok st1

/-- Embeds the `User.delete` override (models.py lines 38-42): deleting an
admin raises `ValidationError` while any `Doctor` or `Patient` row exists;
otherwise the row is deleted (with the cascade over the `user` and
`doctor` foreign keys). -/
def userDelete (st : HospState) (uid : Nat) : Tx HospState :=
  match findUserById st.users uid with
  | none => .err .doesNotExist st
  | some u =>
    if u.role == "admin" && (!st.doctors.isEmpty || !st.patients.isEmpty) then
      .err (.validationError
        "Cannot delete admin while doctors or patients exist. Please reassign or remove them before proceeding.") st
    else
      .ok { st with
        users := st.users.filter (fun v => !(v.id == uid)),
        doctors := st.doctors.filter (fun d => !(d.userId == uid)),
        patients := st.patients.filter (fun p => !(p.doctorId == uid)) }

lemma findUserById_filter_ne (us : List UserRec) (uid : Nat) :
    findUserById (us.filter (fun v => !(v.id == uid))) uid = none := by
  induction us with
  | nil => simp [findUserById]
  | cons u us ih =>
    by_cases h : u.id == uid
    · simp [List.filter, h, ih]
    · simp [List.filter, h, findUserById, ih]

/-- C6: registering a doctor through `UserSerializer.create` attempts a
duplicate `Doctor` creation and crashes.  On an empty database, the user
row is saved and the `User.save` override auto-creates the one `Doctor`;
the serializer then runs its own unconditional `Doctor.objects.create` for
the same user, which violates the one-to-one uniqueness and raises
`IntegrityError` — the operation is not the idempotent single-create the
claim states, although no duplicate row is persisted.  In contrast,
re-saving the same doctor-role user through the `User.save` override alone
is idempotent: the second conjunct shows it returns the state unchanged,
still with exactly one `Doctor`. -/
theorem c6_serializer_duplicate_doctor_create :
    userSerializerCreate ⟨[], [], [], 1⟩ "drbob" "pw" "doctor" =
      .err .integrityError
        ⟨[⟨1, "drbob", "doctor", true, "pw"⟩], [⟨1, "drbob", 0⟩], [], 2⟩ ∧
    userSave ⟨[⟨1, "drbob", "doctor", true, "pw"⟩], [⟨1, "drbob", 0⟩], [], 2⟩
        ⟨1, "drbob", "doctor", true, "pw"⟩ false =
      .ok ⟨[⟨1, "drbob", "doctor", true, "pw"⟩], [⟨1, "drbob", 0⟩], [], 2⟩ :=
  ⟨rfl, rfl⟩

/-- C7: deleting an admin user fails with the deletion-conflict error
(raised as `ValidationError`, the rejection the specification taxonomy
labels `ConflictError`) whenever any doctor or patient row exists, leaving
the state — in particular the admin user — untouched; once no doctor and
no patient exists, the delete succeeds and the admin user is gone. -/
theorem c7_admin_delete_conflict (st : HospState) (uid : Nat) (u : UserRec)
    (h1 : findUserById st.users uid = some u) (h2 : u.role = "admin") :
    (st.doctors ≠ [] ∨ st.patients ≠ [] →
      userDelete st uid = .err (.validationError
        "Cannot delete admin while doctors or patients exist. Please reassign or remove them before proceeding.") st) ∧
    (st.doctors = [] → st.patients = [] →
      ∃ st2, userDelete st uid = .ok st2 ∧ findUserById st2.users uid = none) := by
  constructor
  · intro hne
    have hcond : (u.role == "admin" &&
        (!st.doctors.isEmpty || !st.patients.isEmpty)) = true := by
      rw [h2]
      rcases hne with h | h <;> simp [List.isEmpty_iff, h]
    simp [userDelete, h1, hcond]
  · intro hd hp
    have hcond : (u.role == "admin" &&
        (!st.doctors.isEmpty || !st.patients.isEmpty)) = false := by
      simp [hd, hp]
    refine ⟨{ st with
        users := st.users.filter (fun v => !(v.id == uid)),
        doctors := st.doctors.filter (fun d => !(d.userId == uid)),
        patients := st.patients.filter (fun p => !(p.doctorId == uid)) }, ?_, ?_⟩
    · simp [userDelete, h1, hcond]
    · exact findUserById_filter_ne st.users uid

/-- Witness for C7 at concrete inputs: with one doctor on file the admin
delete fails and the state is unchanged; with no doctors and no patients
the delete succeeds and the admin user is gone. -/
theorem c7_admin_delete_conflict_witness :
    userDelete ⟨[⟨1, "root", "admin", true, "pw"⟩], [⟨2, "drb", 0⟩], [], 3⟩ 1 =
      .err (.validationError
        "Cannot delete admin while doctors or patients exist. Please reassign or remove them before proceeding.")
        ⟨[⟨1, "root", "admin", true, "pw"⟩], [⟨2, "drb", 0⟩], [], 3⟩ ∧
    ∃ st2, userDelete ⟨[⟨1, "root", "admin", true, "pw"⟩], [], [], 3⟩ 1 = .ok st2 ∧
      findUserById st2.users 1 = none :=
  ⟨(c7_admin_delete_conflict ⟨[⟨1, "root", "admin", true, "pw"⟩], [⟨2, "drb", 0⟩], [], 3⟩
      1 ⟨1, "root", "admin", true, "pw"⟩ rfl rfl).1 (Or.inl (by decide)),
   (c7_admin_delete_conflict ⟨[⟨1, "root", "admin", true, "pw"⟩], [], [], 3⟩
      1 ⟨1, "root", "admin", true, "pw"⟩ rfl rfl).2 rfl rfl⟩

/-- Row of the `Discharge` table (models.py lines 116-124): primary key,
`patient` foreign key and the `discharged` boolean, whose default is
false. -/
structure DischargeRec where
  dischargeId : Nat
  patientId : Nat
  discharged : Bool
deriving DecidableEq

/-- Database state for the discharge endpoint. -/
structure DischargeState where
  patients : List PatientRec
  discharges : List DischargeRec
  nextDischargeId : Nat
deriving DecidableEq

/-- The field names of the `Discharge` model (models.py lines 116-124). -/
def dischargeModelFields : List String :=
  ["discharge_id", "patient", "discharged", "discharge_date"]

/-- Embeds `Discharge.objects.create(...)`: the model constructor raises
`TypeError` when a keyword argument is not a model field; otherwise a row
is inserted, with `discharged` at its default `false` since the caller
never passes it. -/
def dischargeObjectsCreate (st : DischargeState) (kwargs : List String)
    (patientId : Nat) : Tx DischargeState :=
  if kwargs.all (fun k => dischargeModelFields.contains k) then
    .ok { st with
      discharges := st.discharges ++ [⟨st.nextDischargeId, patientId, false⟩],
      nextDischargeId := st.nextDischargeId + 1 }
  else .err (.typeError "got unexpected keyword arguments") st

/-- Embeds `DischargePatientView.post` (views.py lines 281-295): resolve
the patient (404 when absent), then call
`Discharge.objects.create(patient=..., doctor=...)`.  `doctor` is not a
field of `Discharge`, so the call raises `TypeError` before inserting any
row; the following `patient.is_active = False` (also not a `Patient`
field) is never reached, and the handler contains no already-discharged
check. -/
def dischargePatientPost (st : DischargeState) (patientId : Nat) :
    Tx DischargeState :=
  match findPatient st.patients patientId with
  | none => .err .notFound st
  | some _ => dischargeObjectsCreate st ["patient", "doctor"] patientId

/-- C8: the discharge endpoint never succeeds — both the first and the
second call for the same existing patient raise `TypeError` (the view
passes a `doctor` keyword the `Discharge` model does not have), the state
is unchanged (no `Discharge` row, so `discharged=true` never happens), and
there is no `ConflictError` double-discharge rejection anywhere. -/
theorem c8_discharge_always_crashes :
    dischargePatientPost ⟨[⟨1, 0, ["Cancer"]⟩], [], 1⟩ 1 =
      .err (.typeError "got unexpected keyword arguments")
        ⟨[⟨1, 0, ["Cancer"]⟩], [], 1⟩ ∧
    dischargeModelFields.contains "doctor" = false :=
  ⟨rfl, by decide⟩

/-- Embeds `PatientDetailView.get_queryset` (views.py lines 170-172): the
queryset is restricted to the requesting doctor's own patients. -/
def patientQueryset (patients : List PatientRec) (doctorId : Nat) :
    List PatientRec :=
  patients.filter (fun p => p.doctorId == doctorId)

/-- Embeds a GET on `PatientDetailView`: `get_object` looks the pk up in
the restricted queryset; `none` is the 404 response. -/
def patientDetailGet (patients : List PatientRec) (doctorId : Nat)
    (pk : Nat) : Option PatientRec :=
  findPatient (patientQueryset patients doctorId) pk

lemma findPatient_mem (ps : List PatientRec) (pk : Nat) (q : PatientRec)
    (h : findPatient ps pk = some q) : q ∈ ps ∧ q.id = pk := by
  induction ps with
  | nil => simp [findPatient] at h
  | cons p ps ih =>
    by_cases hp : p.id == pk
    · simp [findPatient, hp] at h
      subst h
      exact ⟨List.mem_cons_self _ _, by simpa using hp⟩
    · simp [findPatient, hp] at h
      obtain ⟨hm, hid⟩ := ih h
      exact ⟨List.mem_cons_of_mem _ hm, hid⟩

/-- C9: a doctor requesting the detail endpoint of a patient owned by a
different doctor gets a 404 — the ownership-filtered queryset cannot
contain that patient, so the lookup returns nothing and the patient's data
is never returned. -/
theorem c9_foreign_patient_detail_404 (patients : List PatientRec)
    (d : Nat) (p : PatientRec) (hmem : p ∈ patients) (hown : p.doctorId ≠ d)
    (huniq : ∀ q ∈ patients, q.id = p.id → q = p) :
    patientDetailGet patients d p.id = none := by
  cases hq : patientDetailGet patients d p.id with
  | none => rfl
  | some q =>
    exfalso
    unfold patientDetailGet at hq
    obtain ⟨hmemf, hid⟩ := findPatient_mem _ _ _ hq
    unfold patientQueryset at hmemf
    obtain ⟨hmemq, hdq⟩ := List.mem_filter.mp hmemf
    have hqp : q = p := huniq q hmemq hid
    subst hqp
    exact hown (by simpa using hdq)

/-- Witness for C9 at a concrete input: patient 1 belongs to doctor 7; the
detail GET by doctor 5 returns none (404). -/
theorem c9_foreign_patient_detail_404_witness :
    patientDetailGet [⟨1, 7, ["Influenza"]⟩] 5 1 = none :=
  c9_foreign_patient_detail_404 [⟨1, 7, ["Influenza"]⟩] 5 ⟨1, 7, ["Influenza"]⟩
    (by decide) (by decide) (by decide)

/-- Row of the user table as read by the authentication backend. -/
structure AuthUserRec where
  username : String
  password : String
  isSuperuser : Bool
  isActive : Bool
deriving DecidableEq

/-- Embeds `User.objects.get(username=...)`. -/
def findAuthUser : List AuthUserRec → String → Option AuthUserRec
  | [], _ => none
  | u :: us, un => if u.username == un then some u else findAuthUser us un

/-- Embeds `user.check_password(password)`: the supplied raw password
matches the stored credential (password hashing is the external
collaborator, so the stored credential stands for the hash). -/
def checkPassword (u : AuthUserRec) (raw : String) : Bool := u.password == raw

/-- Embeds `CustomAuthBackend.authenticate` (backends.py lines 8-27):
`none` when username or password is missing or the user does not exist;
otherwise the user is returned when `user.is_superuser` holds — regardless
of the password and of `is_active` — or when the account is active and the
password checks out. -/
def authenticate (users : List AuthUserRec) (username? password? : Option String) :
    Option AuthUserRec :=
  match username?, password? with
  | some un, some pw =>
    match findAuthUser users un with
    | some user =>
      if user.isSuperuser || (user.isActive && checkPassword user pw) then some user
      else none
    | none => none
  | _, _ => none

/-- C10: for a stored superuser, authentication succeeds with that user for
every supplied password — with no condition on `is_active`, so also for a
deactivated account — and therefore any two runs with different passwords
return the same successful result: the outcome does not depend on the
password input. -/
theorem c10_superuser_password_independent (users : List AuthUserRec)
    (un : String) (user : AuthUserRec)
    (h1 : findAuthUser users un = some user) (h2 : user.isSuperuser = true) :
    (∀ pw, authenticate users (some un) (some pw) = some user) ∧
    (∀ p1 p2, authenticate users (some un) (some p1) =
      authenticate users (some un) (some p2)) := by
  have hmain : ∀ pw, authenticate users (some un) (some pw) = some user := by
    intro pw
    simp [authenticate, h1, h2]
  exact ⟨hmain, fun p1 p2 => by rw [hmain p1, hmain p2]⟩

/-- Witness for C10 at a concrete input: an inactive superuser whose
stored credential is "secret" is authenticated with two different wrong
passwords, with identical results. -/
theorem c10_superuser_password_independent_witness :
    authenticate [⟨"root", "secret", true, false⟩] (some "root") (some "wrongpw") =
      some ⟨"root", "secret", true, false⟩ ∧
    authenticate [⟨"root", "secret", true, false⟩] (some "root") (some "letmein") =
      authenticate [⟨"root", "secret", true, false⟩] (some "root") (some "wrongpw") :=
  ⟨(c10_superuser_password_independent [⟨"root", "secret", true, false⟩] "root"
      ⟨"root", "secret", true, false⟩ rfl rfl).1 "wrongpw",
   (c10_superuser_password_independent [⟨"root", "secret", true, false⟩] "root"
      ⟨"root", "secret", true, false⟩ rfl rfl).2 "letmein" "wrongpw"⟩

end QuickCare
